import Mathlib

/-
Verification of the ENSGrading core: the grade-text parser (grades.py,
`read_grades`) and the grade aggregation engine (main.py,
`convert_grade_to_letter_and_gpa` / `create_grades_table`).

The embedding is shallow.  Python strings are `List Char`; Python string
primitives (slicing with negative-index normalisation, `find` / `rfind`,
`split`, `replace`, `strip`, `int()` / `float()` conversion) are modelled
below, faithful to CPython semantics on the constructs the source uses.
Python floats are modelled as exact rationals (the business rules are
threshold comparisons and exact sums of small decimals); CPython `int` is
`ℤ`.  A raised exception is modelled as `Except.error` / `Option.none`;
the code under analysis catches exceptions only where the source has an
explicit `try`.
-/

namespace ENSGrading

/-- Python strings are modelled as lists of characters. -/
abbrev Str := List Char

/-- ASCII digit test, as used by `int()` / `float()` and the regex `[A-Za-z]`. -/
def isDigitChar (c : Char) : Bool := '0' ≤ c && c ≤ '9'

/-- ASCII letter test: the character class `[A-Za-z]` of `re.sub` in grades.py. -/
def isAsciiLetter (c : Char) : Bool := ('A' ≤ c && c ≤ 'Z') || ('a' ≤ c && c ≤ 'z')

/-- Models `re.sub(r"[A-Za-z]", "", s)`: drop every ASCII letter. -/
def stripAlpha (s : Str) : Str := s.filter (fun c => !(isAsciiLetter c))

/-- Models Python `str.strip()`: remove leading and trailing whitespace. -/
def pyStrip (s : Str) : Str :=
  ((s.dropWhile Char.isWhitespace).reverse.dropWhile Char.isWhitespace).reverse

/-- Numeric value of a digit string, most significant first. -/
def digitsVal (l : Str) : ℕ := l.foldl (fun a c => 10 * a + (c.toNat - '0'.toNat)) 0

/-- Models Python `int(s)`: optional sign around a non-empty digit string,
surrounding whitespace tolerated; anything else raises `ValueError`
(modelled as `Option.none`).  Underscore digit separators, not produced by
the bulletins, are not modelled. -/
def pyInt (s : Str) : Option ℤ :=
  let t := pyStrip s
  match t with
  | '-' :: rest =>
      if rest ≠ [] && rest.all isDigitChar then some (-(digitsVal rest : ℤ)) else Option.none
  | '+' :: rest =>
      if rest ≠ [] && rest.all isDigitChar then some (digitsVal rest : ℤ) else Option.none
  | _ => if t ≠ [] && t.all isDigitChar then some (digitsVal t : ℤ) else Option.none

/-- Mantissa of a float literal: `d+`, `d+.d*` or `.d+`. -/
def floatMantissa (t : Str) : Option ℚ :=
  let intPart := t.takeWhile isDigitChar
  let rest := t.dropWhile isDigitChar
  match rest with
  | [] => if intPart ≠ [] then some (digitsVal intPart : ℚ) else Option.none
  | '.' :: frac =>
      if frac.all isDigitChar && (intPart ≠ [] || frac ≠ []) then
        some ((digitsVal intPart : ℚ) + (digitsVal frac : ℚ) / (10 : ℚ) ^ frac.length)
      else Option.none
  | _ => Option.none

/-- Models Python `float(s)` on the decimal forms the bulletins contain
(optional sign, digits with an optional decimal point, surrounding
whitespace); exponent notation and `inf`/`nan`, never produced by the
source documents, are not modelled.  Failure (`ValueError`) is `none`. -/
def pyFloat (s : Str) : Option ℚ :=
  let t := pyStrip s
  match t with
  | '-' :: rest => (floatMantissa rest).map (fun q => -q)
  | '+' :: rest => floatMantissa rest
  | _ => floatMantissa t

/-- Normalise a Python slice bound: negative indices count from the end,
then the result is clamped to `[0, len]`. -/
def normIdx (len : ℕ) (i : ℤ) : ℕ :=
  let j := if i < 0 then i + (len : ℤ) else i
  (max 0 (min j (len : ℤ))).toNat

/-- Models Python `s[a:b]` (with negative-index normalisation and clamping). -/
def pySliceZ (s : Str) (a b : ℤ) : Str :=
  (s.take (normIdx s.length b)).drop (normIdx s.length a)

/-- Models Python `s[i]` for a single index: negative indices count from the
end; out of range raises `IndexError` (modelled as `none`). -/
def pyGet (s : Str) (i : ℤ) : Option Char :=
  let j := if i < 0 then i + (s.length : ℤ) else i
  if 0 ≤ j ∧ j < (s.length : ℤ) then s.get? j.toNat else Option.none

/-- Leftmost index at which `sub` occurs in the suffix of `s`, counting from
offset `i`; models `str.find` / `str.index`. -/
def pyFindSubAux (sub : Str) : Str → ℕ → Option ℕ
  | [], i => if sub = [] then some i else Option.none
  | c :: rest, i =>
      if sub.isPrefixOf (c :: rest) then some i else pyFindSubAux sub rest (i + 1)

/-- Models Python `s.find(sub)` (and `s.index(sub)`, whose failure raises). -/
def pyFindSub (s sub : Str) : Option ℕ := pyFindSubAux sub s 0

/-- Models Python `sub in s`. -/
def containsSub (s sub : Str) : Bool := (pyFindSub s sub).isSome

/-- Models Python `s.rfind(c, a, b)` for a single-character needle: the
largest index `i` with `a' ≤ i < b'` and `s[i] = c` (bounds normalised like
slice indices), or `-1` when there is none. -/
def pyRfindChar (s : Str) (c : Char) (a b : ℤ) : ℤ :=
  let lo := normIdx s.length a
  let hi := normIdx s.length b
  match ((List.range s.length).filter
      (fun i => decide (lo ≤ i) && decide (i < hi) && (s.get? i == some c))).getLast? with
  | some i => (i : ℤ)
  | Option.none => -1

/-- Fuel-driven worker for `pySplit` (fuel bounds the recursion; it is
always called with enough fuel to finish). -/
def splitFuel (sep : Str) : ℕ → Str → Str → List Str
  | 0, s, acc => [acc.reverse ++ s]
  | n + 1, s, acc =>
      match s with
      | [] => [acc.reverse]
      | c :: rest =>
          if sep ≠ [] && sep.isPrefixOf (c :: rest) then
            acc.reverse :: splitFuel sep n ((c :: rest).drop sep.length) []
          else
            splitFuel sep n rest (c :: acc)

/-- Models Python `s.split(sep)` with an explicit separator: split at each
non-overlapping occurrence, keeping empty parts. -/
def pySplit (s sep : Str) : List Str := splitFuel sep (s.length + 1) s []

/-- Fuel-driven worker for `pyReplaceSub`. -/
def replaceFuel (old new : Str) : ℕ → Str → Str
  | 0, s => s
  | n + 1, s =>
      match s with
      | [] => []
      | c :: rest =>
          if old ≠ [] && old.isPrefixOf (c :: rest) then
            new ++ replaceFuel old new n ((c :: rest).drop old.length)
          else
            c :: replaceFuel old new n rest

/-- Models Python `s.replace(old, new)`: replace every non-overlapping
occurrence, scanning left to right. -/
def pyReplaceSub (s old new : Str) : Str := replaceFuel old new s.length s

/-! ## Data model of the parser (grades.py) -/

/-- A Python value stored in a grade tuple: a number (int or float, both
modelled as `ℚ`) or `None`. -/
inductive PyVal where
  | none : PyVal
  | num : ℚ → PyVal
deriving DecidableEq, Repr

/-- The exceptions the parser and aggregator can raise or signal.
`extractionEmpty` models the `return None` + error message for an
image-only PDF; the others model uncaught CPython exceptions. -/
inductive PyErr where
  | extractionEmpty : PyErr
  | indexError : PyErr
  | valueError : PyErr
  | unboundLocalError : PyErr
  | typeError : PyErr
deriving DecidableEq, Repr

instance {ε α : Type} [DecidableEq ε] [DecidableEq α] : DecidableEq (Except ε α) :=
  fun a b =>
    match a, b with
    | Except.error e, Except.error f =>
        decidable_of_iff (e = f) (by constructor <;> (intro h; cases h; rfl))
    | Except.ok x, Except.ok y =>
        decidable_of_iff (x = y) (by constructor <;> (intro h; cases h; rfl))
    | Except.error _, Except.ok _ => isFalse (by intro h; cases h)
    | Except.ok _, Except.error _ => isFalse (by intro h; cases h)

/-- The `grades` dict: course title → stored tuple, in insertion order.
Certified parsing stores 2-tuples `(grade, credits)`; uncertified parsing
stores 3-tuples `(grade, gained_credits, credits)`. -/
abbrev GradesDict := List (Str × List PyVal)

/-- Python dict assignment `grades[course] = v`: overwrite in place when the
key exists (keeping its position), otherwise append. -/
def dictSet (g : GradesDict) (k : Str) (v : List PyVal) : GradesDict :=
  if g.any (fun p => p.1 = k) then
    g.map (fun p => if p.1 = k then (k, v) else p)
  else g ++ [(k, v)]

/-- The student profile returned by `read_grades`: every field may be left
`None` when its extraction fails. -/
structure Profile where
  name : Option Str
  surname : Option Str
  academic_year : Option ℤ
  birth_date : Option Str
  birth_location : Option Str
deriving DecidableEq, Repr

/-- The all-`None` profile, the initial assignment of the source. -/
def emptyProfile : Profile :=
  ⟨Option.none, Option.none, Option.none, Option.none, Option.none⟩

/-! ### Certified-dialect metadata (grades.py lines 32-40)

The three extraction steps sit in a single `try` block, executed in order:
academic year from `data[0]`, then surname/name from `data[4]`, then birth
info from `data[9]`.  Each step is modelled as an `Option`; the profile is
assembled with the source's sequential semantics (the first failure leaves
every later field at its initial `None`). -/

/-- Step 1: `int(data[0].split(" ")[-1].split("/")[0])`. -/
def yearOfCertified (data : List Str) : Option ℤ :=
  match data.get? 0 with
  | Option.none => Option.none
  | some l0 =>
    match (pySplit l0 " ".toList).getLast? with
    | Option.none => Option.none
    | some lastTok =>
      match (pySplit lastTok "/".toList).head? with
      | Option.none => Option.none
      | some firstTok => pyInt firstTok

/-- Step 2: `surname, name = data[4].split(" ")` (unpacking needs exactly
two parts). -/
def namesOfCertified (data : List Str) : Option (Str × Str) :=
  match data.get? 4 with
  | Option.none => Option.none
  | some l4 =>
    match pySplit l4 " ".toList with
    | [a, b] => some (a, b)
    | _ => Option.none

/-- Step 3: `birth_date, birth_location = data[9].split(":")[1:]` followed by
`birth_date = birth_date[:len(birth_date)-4].strip()` and
`birth_location = birth_location.strip()`. -/
def birthOfCertified (data : List Str) : Option (Str × Str) :=
  match data.get? 9 with
  | Option.none => Option.none
  | some l9 =>
    match pySplit l9 ":".toList with
    | [_, bd, bl] =>
        some (pyStrip (pySliceZ bd 0 ((bd.length : ℤ) - 4)), pyStrip bl)
    | _ => Option.none

/-- The certified-dialect profile with the source's single-`try` semantics:
a failing step leaves that field and every later field `None`. -/
def extractProfileCertified (data : List Str) : Profile :=
  match yearOfCertified data with
  | Option.none => emptyProfile
  | some y =>
    match namesOfCertified data with
    | Option.none => { emptyProfile with academic_year := some y }
    | some (s, n) =>
      match birthOfCertified data with
      | Option.none =>
          ⟨some n, some s, some y, Option.none, Option.none⟩
      | some (bd, bl) => ⟨some n, some s, some y, some bd, some bl⟩

/-! ### Uncertified-dialect metadata (grades.py lines 80-85)

One `try` block, in order: `name, surname = data[2].split(" ")`, then
`academic_year = int(data[4].split("/")[0].split(":")[-1].strip())`.
Birth fields are never extracted in this dialect. -/

/-- Step 1: `name, surname = data[2].split(" ")`. -/
def namesOfUncert (data : List Str) : Option (Str × Str) :=
  match data.get? 2 with
  | Option.none => Option.none
  | some l2 =>
    match pySplit l2 " ".toList with
    | [a, b] => some (a, b)
    | _ => Option.none

/-- Step 2: `int(data[4].split("/")[0].split(":")[-1].strip())`. -/
def yearOfUncert (data : List Str) : Option ℤ :=
  match data.get? 4 with
  | Option.none => Option.none
  | some l4 =>
    match (pySplit l4 "/".toList).head? with
    | Option.none => Option.none
    | some p0 =>
      match (pySplit p0 ":".toList).getLast? with
      | Option.none => Option.none
      | some lastTok => pyInt (pyStrip lastTok)

/-- The uncertified-dialect profile.  Unlike the certified branch (line 32
initializes all five variables), grades.py line 80 initializes only
`name, surname, birth_date, birth_location` — `academic_year` is NOT
initialized.  When either metadata step fails (the single `try` aborts at
the first failure, and the year is extracted last), `academic_year` is
never bound, and the `return` at line 110 raises `UnboundLocalError`.
`none` models that unbound state: no profile ever escapes the function. -/
def extractProfileUncert (data : List Str) : Option Profile :=
  match namesOfUncert data with
  | Option.none => Option.none
  | some (n, s) =>
    match yearOfUncert data with
    | Option.none => Option.none
    | some y => some ⟨some n, some s, some y, Option.none, Option.none⟩

/-! ### Course-line processing

Three loops, one per track.  Only the marked (M1) certified track wraps its
marker location in `try/except: continue`; every other failure propagates
as an uncaught exception (`Except.error`). -/

/-- The exceptions a course-line body can raise (`extractionEmpty` is
signalled only for an empty document, never from a course line). -/
inductive CourseErr where
  | indexError : CourseErr
  | valueError : CourseErr
deriving DecidableEq, Repr

/-- The `PyErr` a course-line exception surfaces as. -/
def CourseErr.toPyErr : CourseErr → PyErr
  | CourseErr.indexError => PyErr.indexError
  | CourseErr.valueError => PyErr.valueError

/-- What one certified course-loop iteration does with its line: end the
loop, skip the line, store `(grade, credits)`, or raise. -/
inductive LineOutcome where
  | stop : LineOutcome
  | skip : LineOutcome
  | record : Str → ℚ → ℚ → LineOutcome
  | fail : CourseErr → LineOutcome
deriving DecidableEq, Repr

/-- Body of one marked (M1) certified iteration (grades.py lines 47-65):
stop at an `Overall Result` line, skip `SEMESTER` headers, locate `/20` in
`line[5:]` (a failure skips the line), convert the grade, read the
trailing ECTS digit when `line[-2]` is a space. -/
def masterLine (line : Str) : LineOutcome :=
  if ("Overall Result".toList).isPrefixOf line then LineOutcome.stop
  else if ("SEMESTER".toList).isPrefixOf line then LineOutcome.skip
  else
    let bline := pySliceZ line 5 line.length
    match pyFindSub bline "/20".toList with
    | Option.none => LineOutcome.skip
    | some idx_end =>
      let idx_beg := pyRfindChar bline ' ' 0 (idx_end : ℤ)
      match pyFloat (pyReplaceSub (pyStrip (pySliceZ bline idx_beg (idx_end : ℤ)))
          ",".toList ".".toList) with
      | Option.none => LineOutcome.fail CourseErr.valueError
      | some grade =>
        let course := pySliceZ line 0 (idx_beg + 5)
        match pyGet line (-2) with
        | Option.none => LineOutcome.fail CourseErr.indexError
        | some c2 =>
          if c2 = ' ' then
            match pyGet line (-1) with
            | Option.none => LineOutcome.fail CourseErr.indexError
            | some c1 =>
              match pyInt [c1] with
              | Option.none => LineOutcome.fail CourseErr.valueError
              | some credits => LineOutcome.record course grade (credits : ℚ)
          else LineOutcome.record course grade 0

/-- Certified marked (M1) track loop: iterate `masterLine`, storing each
recorded course as the 2-tuple `(grade, credits)`. -/
def processMaster : List Str → GradesDict → Except PyErr GradesDict
  | [], g => Except.ok g
  | line :: rest, g =>
    match masterLine line with
    | LineOutcome.stop => Except.ok g
    | LineOutcome.skip => processMaster rest g
    | LineOutcome.record course grade credits =>
        processMaster rest (dictSet g course [PyVal.num grade, PyVal.num credits])
    | LineOutcome.fail e => Except.error e.toPyErr

/-- Body of one default (L3) certified iteration (grades.py lines 66-78):
process lines starting with `UE`; here `line.index("/20")` and
`float(...)` are NOT guarded, so their failure aborts the whole parse.
Note the rebinding `line = line[5:]` — every later index, including the
course title and the trailing-ECTS test, is relative to the sliced line. -/
def l3Line (line0 : Str) : LineOutcome :=
  if ("UE".toList).isPrefixOf line0 then
    let line := pySliceZ line0 5 line0.length
    match pyFindSub line "/20".toList with
    | Option.none => LineOutcome.fail CourseErr.valueError
    | some idx_end =>
      let idx_beg := pyRfindChar line ' ' 0 ((idx_end : ℤ) - 1)
      match pyFloat (pyReplaceSub (pyStrip (pySliceZ line idx_beg (idx_end : ℤ)))
          ",".toList ".".toList) with
      | Option.none => LineOutcome.fail CourseErr.valueError
      | some grade =>
        let course := pySliceZ line 0 idx_beg
        match pyGet line (-2) with
        | Option.none => LineOutcome.fail CourseErr.indexError
        | some c2 =>
          if c2 = ' ' then
            match pyGet line (-1) with
            | Option.none => LineOutcome.fail CourseErr.indexError
            | some c1 =>
              match pyInt [c1] with
              | Option.none => LineOutcome.fail CourseErr.valueError
              | some credits => LineOutcome.record course grade (credits : ℚ)
          else LineOutcome.record course grade 0
  else LineOutcome.skip

/-- Certified default (L3) track loop: iterate `l3Line` (this loop has no
terminal marker, so a `stop` outcome never occurs). -/
def processL3 : List Str → GradesDict → Except PyErr GradesDict
  | [], g => Except.ok g
  | line0 :: rest, g =>
    match l3Line line0 with
    | LineOutcome.stop => Except.ok g
    | LineOutcome.skip => processL3 rest g
    | LineOutcome.record course grade credits =>
        processL3 rest (dictSet g course [PyVal.num grade, PyVal.num credits])
    | LineOutcome.fail e => Except.error e.toPyErr

/-- Line predicate of the uncertified track (grades.py line 89). -/
def uncertCourseLine (line : Str) : Bool :=
  (("UE".toList).isPrefixOf line || ("AJ".toList).isSuffixOf line
      || ("ADM".toList).isSuffixOf line)
  && !(containsSub line "Semestre".toList || containsSub line "L3".toList
      || containsSub line "Moyenne".toList || containsSub line "Séminaire".toList
      || containsSub line "Stage".toList || containsSub line "Master".toList)

/-- What one uncertified iteration does with its line: skip it, store a
full `(grade, gained, credits)` record (slash present), store a record
whose earned credits come from the stale `gained_credits` variable (slash
absent), or raise. -/
inductive UncertOutcome where
  | skip : UncertOutcome
  | rec3 : Str → ℚ → ℤ → ℤ → UncertOutcome
  | recStale : Str → ℚ → UncertOutcome
  | fail : CourseErr → UncertOutcome
deriving DecidableEq, Repr

/-- Body of one uncertified iteration (grades.py lines 89-108): recognize
the line, drop its first token, normalize noise, then either read
`grade`, `gained` and `credits` around the rightmost slash, or — when no
slash is present — read only the grade (the stored earned credits are then
whatever `gained_credits` held from a previous iteration). -/
def uncertLine (line : Str) : UncertOutcome :=
  if uncertCourseLine line then
    match pyFindSub line " ".toList with
    | Option.none => UncertOutcome.fail CourseErr.valueError
    | some i =>
      let l1 := pySliceZ line ((i : ℤ) + 1) line.length
      let l2 := pyReplaceSub (pyReplaceSub (pyReplaceSub l1 "I/".toList "/".toList)
          "UE - ".toList "".toList) "EU - ".toList "".toList
      let idx_slash := pyRfindChar l2 '/' 0 l2.length
      if idx_slash ≠ -1 then
        match pyFloat (stripAlpha (pyReplaceSub
            (pyStrip (pySliceZ l2 (idx_slash + 3) (pyRfindChar l2 ' ' 0 l2.length)))
            ",".toList ".".toList)) with
        | Option.none => UncertOutcome.fail CourseErr.valueError
        | some grade =>
          let course := pySliceZ l2 0 (idx_slash - 2)
          match pyInt (pySliceZ l2 (idx_slash - 1) idx_slash) with
          | Option.none => UncertOutcome.fail CourseErr.valueError
          | some gained =>
            match pyInt (pySliceZ l2 (idx_slash + 1) (idx_slash + 2)) with
            | Option.none => UncertOutcome.fail CourseErr.valueError
            | some credits => UncertOutcome.rec3 course grade gained credits
      else
        let idx_end := pyRfindChar l2 ' ' 0 l2.length
        let idx_beg := pyRfindChar l2 ' ' 0 idx_end
        match pyFloat (stripAlpha (pyReplaceSub
            (pyStrip (pySliceZ l2 (idx_beg + 1) idx_end)) ",".toList ".".toList)) with
        | Option.none => UncertOutcome.fail CourseErr.valueError
        | some grade => UncertOutcome.recStale (pySliceZ l2 0 idx_beg) grade
  else UncertOutcome.skip

/-- Uncertified track loop (grades.py lines 88-109).  The last argument
models the Python local variable `gained_credits`, which survives across
iterations: in the slash-less branch the source stores the value left over
from a previous iteration (`UnboundLocalError` if there was none), together with
`credits = 0`. -/
def processUncert : List Str → GradesDict → Option ℤ → Except PyErr GradesDict
  | [], g, _ => Except.ok g
  | line :: rest, g, gainedPrev =>
    match uncertLine line with
    | UncertOutcome.skip => processUncert rest g gainedPrev
    | UncertOutcome.fail e => Except.error e.toPyErr
    | UncertOutcome.rec3 course grade gained credits =>
        processUncert rest
          (dictSet g course
            [PyVal.num grade, PyVal.num (gained : ℚ), PyVal.num (credits : ℚ)])
          (some gained)
    | UncertOutcome.recStale course grade =>
        match gainedPrev with
        | Option.none => Except.error PyErr.unboundLocalError
        | some gainedOld =>
            processUncert rest
              (dictSet g course
                [PyVal.num grade, PyVal.num (gainedOld : ℚ), PyVal.num 0])
              gainedPrev

/-- Course processing of a certified bulletin (grades.py lines 43-78):
`master = "MASTER 1 COMPUTER SCIENCE" in data[8]` (an unguarded index),
then the marked loop on `data[7:]` or the default loop on `data[5:]`. -/
def coursePartCertified (data : List Str) : Except PyErr GradesDict :=
  match data.get? 8 with
  | Option.none => Except.error PyErr.indexError
  | some d8 =>
    if containsSub d8 "MASTER 1 COMPUTER SCIENCE".toList then
      processMaster (data.drop 7) []
    else
      processL3 (data.drop 5) []

/-- The parser `read_grades` over the extracted text lines (pdfplumber text
extraction is the out-of-scope document-text-extractor boundary).  Empty
input signals `EXTRACTION_EMPTY`.  Certified: metadata extraction never
fails (every variable is initialized at line 32), so the result pairs the
independently-computed profile with the course part.  Uncertified: the
course loop runs first to completion (its exception, if any, wins), and
then the `return` raises `UnboundLocalError` whenever the metadata `try`
left `academic_year` unbound — a successful result needs both metadata
steps to have succeeded.  The Python function extracts metadata before the
loop, but the failure only manifests at the `return`, after the loop; the
resulting value/exception is as modelled here. -/
def read_grades (data : List Str) (certified : Bool) :
    Except PyErr (Profile × GradesDict) :=
  match data with
  | [] => Except.error PyErr.extractionEmpty
  | _ :: _ =>
    if certified then
      Except.map (fun g => (extractProfileCertified data, g)) (coursePartCertified data)
    else
      match processUncert (data.drop 5) [] Option.none with
      | Except.error e => Except.error e
      | Except.ok g =>
        match extractProfileUncert data with
        | Option.none => Except.error PyErr.unboundLocalError
        | some profile => Except.ok (profile, g)

/-! ## The aggregation engine (main.py)

`convert_grade_to_letter_and_gpa` returns the GPA as the strings `"4.33"`,
…, `"0.0"` or `"N/A"`, later read back with `float(...)` guarded by
`gpa != "N/A"`.  The string is modelled as `Option ℚ` (`none` = `"N/A"`).
Rendering concerns (f-string formatting, `:.2f` rounding of the summary
row) are presentation only and are not modelled; the summary carries the
exact computed values. -/

/-- main.py lines 374-398, the ordered threshold chain. -/
def convert_grade_to_letter_and_gpa (grade20 : Option ℚ) : String × Option ℚ :=
  match grade20 with
  | Option.none => ("N/A", Option.none)
  | some g =>
    if g ≥ 16 then ("A+", some (433 / 100))
    else if g ≥ 14 then ("A", some 4)
    else if g ≥ 13 then ("A-", some (367 / 100))
    else if g ≥ 12 then ("B+", some (333 / 100))
    else if g ≥ 11 then ("B", some 3)
    else if g ≥ 10 then ("B-", some (267 / 100))
    else if g ≥ 9 then ("C+", some (233 / 100))
    else if g ≥ 8 then ("C", some 2)
    else if g ≥ 7 then ("C-", some (167 / 100))
    else ("F", some 0)

/-- One course record as consumed by `create_grades_table`
(`[grade, credits_obtained, max_credits]` per its docstring): position 0 is
the grade (possibly `None`), position 1 the parser-supplied earned credits
(never read by the aggregator), position 2 the maximum credits
(a non-negative ECTS count). -/
structure CourseRec where
  grade : Option ℚ
  gained : ℚ
  maxCr : ℕ
deriving DecidableEq, Repr

/-- A data row of the rendered table (main.py lines 452-458).
`creditsObtained`/`creditsMax` are the two halves of the
`"obtained/maximum"` display, `star` the `" *"` suffix added when
`grade < 10`. -/
structure TableRow where
  title : Str
  creditsObtained : ℚ
  creditsMax : ℚ
  star : Bool
  gradeDisplay : Option ℚ
  letter : String
  gpa : Option ℚ
deriving DecidableEq, Repr

/-- The running totals of the course loop (main.py lines 410-417), plus the
accumulated data rows. -/
@[ext]
structure AggState where
  passed_all : Bool
  total_grade_points : ℚ
  actual_credits_earned : ℚ
  total_grade_sum : ℚ
  total_courses : ℕ
  total_max_credits : ℚ
  rows : List TableRow
deriving Repr

/-- Initial loop state (main.py lines 410-417). -/
def initState : AggState := ⟨true, 0, 0, 0, 0, 0, []⟩

/-- The table row built for one course with non-`None` grade `g`. -/
def courseRow (title : Str) (g : ℚ) (max_credits : ℚ) : TableRow :=
  { title := title
    creditsObtained := if g < 10 then 0 else max_credits
    creditsMax := max_credits
    star := decide (g < 10)
    gradeDisplay := some g
    letter := (convert_grade_to_letter_and_gpa (some g)).1
    gpa := (convert_grade_to_letter_and_gpa (some g)).2 }

/-- One iteration of the course loop (main.py lines 420-458) for a course
whose grade `g` survived the `grade < 10` comparison (hence is not `None`;
the source's later `grade is not None` tests are therefore true here). -/
def courseStep (st : AggState) (title : Str) (g : ℚ) (max_credits : ℚ) : AggState :=
  let credits_obtained : ℚ := if g < 10 then 0 else max_credits
  let gpa := (convert_grade_to_letter_and_gpa (some g)).2
  { passed_all := if g < 10 then false else st.passed_all
    total_grade_points :=
      if 0 < credits_obtained ∧ gpa ≠ Option.none then
        st.total_grade_points + gpa.getD 0 * credits_obtained
      else st.total_grade_points
    actual_credits_earned :=
      if 0 < credits_obtained ∧ gpa ≠ Option.none then
        st.actual_credits_earned + credits_obtained
      else st.actual_credits_earned
    total_grade_sum := st.total_grade_sum + g
    total_courses := st.total_courses + 1
    total_max_credits := st.total_max_credits + max_credits
    rows := st.rows ++ [courseRow title g max_credits] }

/-- The course loop over structured records.  `None < 10` raises
`TypeError` in Python 3 before any null test (main.py line 425); the raise
is modelled as `Option.none`. -/
def runCourses : List (Str × CourseRec) → AggState → Option AggState
  | [], st => some st
  | (title, info) :: rest, st =>
    match info.grade with
    | Option.none => Option.none
    | some g => runCourses rest (courseStep st title g (info.maxCr : ℚ))

/-- The compensation recomputation pass (main.py lines 468-475): a second
loop over the table, summing `float(gpa) * max_credits` for every course
whose grade is not `None` and whose gpa is not `"N/A"`. -/
def compensationPoints : List (Str × CourseRec) → ℚ
  | [] => 0
  | (_, info) :: rest =>
    (match info.grade with
     | Option.none => 0
     | some g =>
       let gpa := (convert_grade_to_letter_and_gpa (some g)).2
       if gpa ≠ Option.none then gpa.getD 0 * (info.maxCr : ℚ) else 0)
    + compensationPoints rest

/-- The TOTALS summary row (main.py lines 460-489), exact values. -/
structure Summary where
  creditsForTotals : ℚ
  averageGrade : ℚ
  averageLetter : String
  cumulativeGPA : ℚ
deriving DecidableEq, Repr

/-- Value of `create_grades_table`: the data rows, the summary row and the
`passed_all` flag. -/
structure GradesTableResult where
  rows : List TableRow
  summary : Summary
  passed_all : Bool
deriving DecidableEq, Repr

/-- main.py lines 401-492 over structured records.  `Option.none` models
the `TypeError` raised when a `None` grade reaches `grade < 10`. -/
def create_grades_table (grades_data : List (Str × CourseRec)) :
    Option GradesTableResult :=
  match runCourses grades_data initState with
  | Option.none => Option.none
  | some st =>
    let average_grade : ℚ :=
      if 0 < st.total_courses then st.total_grade_sum / (st.total_courses : ℚ) else 0
    if 10 < average_grade then
      let comp := compensationPoints grades_data
      let cumulative : ℚ :=
        if 0 < st.total_max_credits then comp / st.total_max_credits else 0
      some ⟨st.rows,
        ⟨st.total_max_credits, average_grade,
          (convert_grade_to_letter_and_gpa (some average_grade)).1, cumulative⟩,
        st.passed_all⟩
    else
      let cumulative : ℚ :=
        if 0 < st.actual_credits_earned then
          st.total_grade_points / st.actual_credits_earned
        else 0
      some ⟨st.rows,
        ⟨st.actual_credits_earned, average_grade,
          (convert_grade_to_letter_and_gpa (some average_grade)).1, cumulative⟩,
        st.passed_all⟩

/-! ### The aggregator over raw stored tuples

`create_grades_table` receives, through `config/grades.json`, exactly the
tuples `read_grades` stored.  This version keeps the tuple shape and models
the positional accesses `course_info[0]` / `course_info[2]` (main.py lines
421-422): a missing position raises `IndexError`, a `None` where a number
is compared or multiplied raises `TypeError`. -/

/-- Course loop over raw tuples. -/
def runCoursesT : List (Str × List PyVal) → AggState → Except PyErr AggState
  | [], st => Except.ok st
  | (title, info) :: rest, st =>
    match info.get? 0 with
    | Option.none => Except.error PyErr.indexError
    | some gv =>
      match info.get? 2 with
      | Option.none => Except.error PyErr.indexError
      | some mv =>
        match gv with
        | PyVal.none => Except.error PyErr.typeError
        | PyVal.num g =>
          match mv with
          | PyVal.none => Except.error PyErr.typeError
          | PyVal.num m => runCoursesT rest (courseStep st title g m)

/-- Compensation pass over raw tuples (summed tail-first; addition on `ℚ`
is commutative, so the total equals the source's left-to-right sum). -/
def compensationPointsT : List (Str × List PyVal) → Except PyErr ℚ
  | [] => Except.ok 0
  | (_, info) :: rest =>
    match info.get? 0 with
    | Option.none => Except.error PyErr.indexError
    | some gv =>
      match info.get? 2 with
      | Option.none => Except.error PyErr.indexError
      | some mv =>
        match compensationPointsT rest with
        | Except.error e => Except.error e
        | Except.ok acc =>
          match gv with
          | PyVal.none => Except.ok acc
          | PyVal.num g =>
            match mv with
            | PyVal.none => Except.error PyErr.typeError
            | PyVal.num m =>
              let gpa := (convert_grade_to_letter_and_gpa (some g)).2
              if gpa ≠ Option.none then Except.ok (gpa.getD 0 * m + acc)
              else Except.ok acc

/-- main.py lines 401-492 over the raw stored tuples. -/
def create_grades_table_tuples (grades_data : List (Str × List PyVal)) :
    Except PyErr GradesTableResult :=
  match runCoursesT grades_data initState with
  | Except.error e => Except.error e
  | Except.ok st =>
    let average_grade : ℚ :=
      if 0 < st.total_courses then st.total_grade_sum / (st.total_courses : ℚ) else 0
    if 10 < average_grade then
      match compensationPointsT grades_data with
      | Except.error e => Except.error e
      | Except.ok comp =>
        let cumulative : ℚ :=
          if 0 < st.total_max_credits then comp / st.total_max_credits else 0
        Except.ok ⟨st.rows,
          ⟨st.total_max_credits, average_grade,
            (convert_grade_to_letter_and_gpa (some average_grade)).1, cumulative⟩,
          st.passed_all⟩
    else
      let cumulative : ℚ :=
        if 0 < st.actual_credits_earned then
          st.total_grade_points / st.actual_credits_earned
        else 0
      Except.ok ⟨st.rows,
        ⟨st.actual_credits_earned, average_grade,
          (convert_grade_to_letter_and_gpa (some average_grade)).1, cumulative⟩,
        st.passed_all⟩

/-! ## Specification-side definitions

These definitions transcribe the spec's words (not the source) and are
compared against the source embeddings in the claim theorems. -/

/-- Follows the spec's words for the letter/GPA table: ten half-open bands
written with explicit two-sided bounds, plus the null case. -/
def gradeToLetterAndGPA_spec (grade20 : Option ℚ) : String × Option ℚ :=
  match grade20 with
  | Option.none => ("N/A", Option.none)
  | some g =>
    if 16 ≤ g then ("A+", some (433 / 100))
    else if 14 ≤ g ∧ g < 16 then ("A", some 4)
    else if 13 ≤ g ∧ g < 14 then ("A-", some (367 / 100))
    else if 12 ≤ g ∧ g < 13 then ("B+", some (333 / 100))
    else if 11 ≤ g ∧ g < 12 then ("B", some 3)
    else if 10 ≤ g ∧ g < 11 then ("B-", some (267 / 100))
    else if 9 ≤ g ∧ g < 10 then ("C+", some (233 / 100))
    else if 8 ≤ g ∧ g < 9 then ("C", some 2)
    else if 7 ≤ g ∧ g < 8 then ("C-", some (167 / 100))
    else ("F", some 0)

/-- GPA points of a non-null grade (the numeric reading of the conversion's
second component). -/
def gpaOf (g : ℚ) : ℚ := ((convert_grade_to_letter_and_gpa (some g)).2).getD 0

/-- Follows the spec's words: per-course earned credits are `0` when the
grade is below 10, else the course's maximum credits. -/
def earnedOf (g : ℚ) (m : ℚ) : ℚ := if g < 10 then 0 else m

/-- Follows the spec's words: the unweighted mean of all course grades
(`0` for an empty table, per the division-by-zero policy; on `ℚ`,
`x / 0 = 0`). -/
def spec_meanGrade (gd : List (Str × CourseRec)) : ℚ :=
  (gd.map (fun p => p.2.grade.getD 0)).sum / (gd.length : ℚ)

/-- Follows the spec's words: the sum of every course's maximum credits. -/
def spec_sumMaxCredits (gd : List (Str × CourseRec)) : ℚ :=
  (gd.map (fun p => ((p.2.maxCr : ℚ)))).sum

/-- Follows the spec's words: the credits actually earned under the
per-course rule. -/
def spec_earnedCredits (gd : List (Str × CourseRec)) : ℚ :=
  (gd.map (fun p => earnedOf (p.2.grade.getD 0) (p.2.maxCr : ℚ))).sum

/-- Follows the spec's words: the mean of per-course GPA points weighted by
each course's maximum credits. -/
def spec_gpaWeightedByMax (gd : List (Str × CourseRec)) : ℚ :=
  (gd.map (fun p => gpaOf (p.2.grade.getD 0) * (p.2.maxCr : ℚ))).sum
    / spec_sumMaxCredits gd

/-- Follows the spec's words: the mean of GPA points weighted by earned
credits, restricted to courses with earned credits greater than zero. -/
def spec_gpaWeightedByEarned (gd : List (Str × CourseRec)) : ℚ :=
  let l := gd.filter (fun p => decide (0 < earnedOf (p.2.grade.getD 0) (p.2.maxCr : ℚ)))
  (l.map (fun p => gpaOf (p.2.grade.getD 0) * earnedOf (p.2.grade.getD 0) (p.2.maxCr : ℚ))).sum
    / (l.map (fun p => earnedOf (p.2.grade.getD 0) (p.2.maxCr : ℚ))).sum

/-! ## Claim C2: the letter-grade/GPA conversion table -/

/-- C2: for every grade, the conversion returns exactly the band values of
the fixed threshold table (half-open intervals, first match wins), and a
null grade maps to N/A: the source conversion coincides with the table
transcribed from the spec. -/
theorem C2_letter_gpa_table :
    ∀ g : Option ℚ, convert_grade_to_letter_and_gpa g = gradeToLetterAndGPA_spec g := by
  intro g
  match g with
  | Option.none => rfl
  | some q =>
    simp only [convert_grade_to_letter_and_gpa, gradeToLetterAndGPA_spec]
    rcases le_or_lt 16 q with h16 | h16
    · simp [h16]
    rcases le_or_lt 14 q with h14 | h14
    · simp [not_le.mpr h16, h14, h16]
    rcases le_or_lt 13 q with h13 | h13
    · simp [not_le.mpr h16, not_le.mpr h14, h13, h14]
    rcases le_or_lt 12 q with h12 | h12
    · simp [not_le.mpr h16, not_le.mpr h14, not_le.mpr h13, h12, h13]
    rcases le_or_lt 11 q with h11 | h11
    · simp [not_le.mpr h16, not_le.mpr h14, not_le.mpr h13, not_le.mpr h12, h11, h12]
    rcases le_or_lt 10 q with h10 | h10
    · simp [not_le.mpr h16, not_le.mpr h14, not_le.mpr h13, not_le.mpr h12,
        not_le.mpr h11, h10, h11]
    rcases le_or_lt 9 q with h9 | h9
    · simp [not_le.mpr h16, not_le.mpr h14, not_le.mpr h13, not_le.mpr h12,
        not_le.mpr h11, not_le.mpr h10, h9, h10]
    rcases le_or_lt 8 q with h8 | h8
    · simp [not_le.mpr h16, not_le.mpr h14, not_le.mpr h13, not_le.mpr h12,
        not_le.mpr h11, not_le.mpr h10, not_le.mpr h9, h8, h9]
    rcases le_or_lt 7 q with h7 | h7
    · simp [not_le.mpr h16, not_le.mpr h14, not_le.mpr h13, not_le.mpr h12,
        not_le.mpr h11, not_le.mpr h10, not_le.mpr h9, not_le.mpr h8, h7, h8]
    · simp [not_le.mpr h16, not_le.mpr h14, not_le.mpr h13, not_le.mpr h12,
        not_le.mpr h11, not_le.mpr h10, not_le.mpr h9, not_le.mpr h8, not_le.mpr h7]

/-! ## Helper lemmas about the aggregation loop -/

/-- The conversion of a non-null grade never returns an N/A GPA. -/
theorem convert_some_gpa_isSome (g : ℚ) :
    (convert_grade_to_letter_and_gpa (some g)).2 ≠ Option.none := by
  simp only [convert_grade_to_letter_and_gpa]
  split_ifs <;> simp

/-- The conversion of a non-null grade never returns the N/A letter. -/
theorem convert_some_letter_ne (g : ℚ) :
    (convert_grade_to_letter_and_gpa (some g)).1 ≠ "N/A" := by
  simp only [convert_grade_to_letter_and_gpa]
  split_ifs <;> decide

/-- The grade-points term accumulated by one loop iteration. -/
def tgpTerm (g m : ℚ) : ℚ :=
  if 0 < earnedOf g m ∧ (convert_grade_to_letter_and_gpa (some g)).2 ≠ Option.none then
    ((convert_grade_to_letter_and_gpa (some g)).2).getD 0 * earnedOf g m
  else 0

/-- The earned-credits term accumulated by one loop iteration. -/
def aceTerm (g m : ℚ) : ℚ :=
  if 0 < earnedOf g m ∧ (convert_grade_to_letter_and_gpa (some g)).2 ≠ Option.none then
    earnedOf g m
  else 0

/-- Field view of one loop iteration: the pass flag. -/
theorem courseStep_passed (st : AggState) (title : Str) (g m : ℚ) :
    (courseStep st title g m).passed_all = (st.passed_all && decide (10 ≤ g)) := by
  simp only [courseStep]
  by_cases h : g < 10
  · simp [h, not_le.mpr h]
  · simp [h, not_lt.mp h]

/-- Field view of one loop iteration: grade points. -/
theorem courseStep_tgp (st : AggState) (title : Str) (g m : ℚ) :
    (courseStep st title g m).total_grade_points = st.total_grade_points + tgpTerm g m := by
  simp only [courseStep, tgpTerm, earnedOf]
  by_cases hc : (0 < (if g < 10 then (0 : ℚ) else m)
      ∧ (convert_grade_to_letter_and_gpa (some g)).2 ≠ Option.none)
  · rw [if_pos hc, if_pos hc]
  · rw [if_neg hc, if_neg hc, add_zero]

/-- Field view of one loop iteration: earned credits. -/
theorem courseStep_ace (st : AggState) (title : Str) (g m : ℚ) :
    (courseStep st title g m).actual_credits_earned
      = st.actual_credits_earned + aceTerm g m := by
  simp only [courseStep, aceTerm, earnedOf]
  by_cases hc : (0 < (if g < 10 then (0 : ℚ) else m)
      ∧ (convert_grade_to_letter_and_gpa (some g)).2 ≠ Option.none)
  · rw [if_pos hc, if_pos hc]
  · rw [if_neg hc, if_neg hc, add_zero]

/-- Closed form of the course loop on a table of non-null grades: the final
state is the initial state extended with per-course sums. -/
theorem runCourses_eq (gd : List (Str × CourseRec)) :
    ∀ st : AggState, (∀ p ∈ gd, p.2.grade.isSome) →
      runCourses gd st = some
        { passed_all := st.passed_all && gd.all (fun p => decide (10 ≤ p.2.grade.getD 0))
          total_grade_points := st.total_grade_points
            + (gd.map (fun p => tgpTerm (p.2.grade.getD 0) (p.2.maxCr : ℚ))).sum
          actual_credits_earned := st.actual_credits_earned
            + (gd.map (fun p => aceTerm (p.2.grade.getD 0) (p.2.maxCr : ℚ))).sum
          total_grade_sum := st.total_grade_sum + (gd.map (fun p => p.2.grade.getD 0)).sum
          total_courses := st.total_courses + gd.length
          total_max_credits := st.total_max_credits + (gd.map (fun p => ((p.2.maxCr : ℚ)))).sum
          rows := st.rows ++ gd.map (fun p => courseRow p.1 (p.2.grade.getD 0) (p.2.maxCr : ℚ)) } := by
  induction gd with
  | nil =>
      intro st _
      simp [runCourses]
  | cons hd rest ih =>
      obtain ⟨title, info⟩ := hd
      intro st h
      have hs : info.grade.isSome := by
        have := h (title, info) (by simp)
        simpa using this
      obtain ⟨g, hg⟩ := Option.isSome_iff_exists.mp hs
      simp only [runCourses, hg]
      rw [ih _ (fun p hp => h p (List.mem_cons_of_mem _ hp))]
      refine congrArg some ?_
      ext : 1
      case passed_all =>
        simp only [courseStep_passed, List.all_cons, hg, Option.getD_some, Bool.and_assoc]
      case total_grade_points =>
        simp only [courseStep_tgp, List.map_cons, List.sum_cons, hg, Option.getD_some]
        ring
      case actual_credits_earned =>
        simp only [courseStep_ace, List.map_cons, List.sum_cons, hg, Option.getD_some]
        ring
      case total_grade_sum =>
        simp only [courseStep, List.map_cons, List.sum_cons, hg, Option.getD_some]
        ring
      case total_courses =>
        simp only [courseStep, List.length_cons]
        omega
      case total_max_credits =>
        simp only [courseStep, List.map_cons, List.sum_cons]
        ring
      case rows =>
        simp [courseStep, hg, List.append_assoc]

/-- Per-course earned credits are non-negative when the maximum is. -/
theorem earnedOf_nonneg (g m : ℚ) (hm : 0 ≤ m) : 0 ≤ earnedOf g m := by
  unfold earnedOf
  split_ifs
  · exact le_refl 0
  · exact hm

/-- The accumulated grade-points term is the spec's `gpa × earned` product
(the `> 0` guard only skips terms that are zero anyway). -/
theorem tgpTerm_eq (g m : ℚ) (hm : 0 ≤ m) : tgpTerm g m = gpaOf g * earnedOf g m := by
  simp only [tgpTerm, gpaOf]
  by_cases hc : (0 < earnedOf g m
      ∧ (convert_grade_to_letter_and_gpa (some g)).2 ≠ Option.none)
  · rw [if_pos hc]
  · rw [if_neg hc]
    have h0 : ¬ 0 < earnedOf g m := fun hpos => hc ⟨hpos, convert_some_gpa_isSome g⟩
    have : earnedOf g m = 0 := le_antisymm (not_lt.mp h0) (earnedOf_nonneg g m hm)
    rw [this, mul_zero]

/-- The accumulated earned-credits term is the spec's per-course earned
credits. -/
theorem aceTerm_eq (g m : ℚ) (hm : 0 ≤ m) : aceTerm g m = earnedOf g m := by
  simp only [aceTerm]
  by_cases hc : (0 < earnedOf g m
      ∧ (convert_grade_to_letter_and_gpa (some g)).2 ≠ Option.none)
  · rw [if_pos hc]
  · rw [if_neg hc]
    have h0 : ¬ 0 < earnedOf g m := fun hpos => hc ⟨hpos, convert_some_gpa_isSome g⟩
    exact (le_antisymm (not_lt.mp h0) (earnedOf_nonneg g m hm)).symm

/-- The compensation pass computes the sum of `gpa × maxCredits` over a
table of non-null grades. -/
theorem compensationPoints_eq (gd : List (Str × CourseRec))
    (h : ∀ p ∈ gd, p.2.grade.isSome) :
    compensationPoints gd
      = (gd.map (fun p => gpaOf (p.2.grade.getD 0) * (p.2.maxCr : ℚ))).sum := by
  induction gd with
  | nil => simp [compensationPoints]
  | cons hd rest ih =>
      obtain ⟨t, info⟩ := hd
      have hs : info.grade.isSome := by
        have := h (t, info) (by simp)
        simpa using this
      obtain ⟨g, hg⟩ := Option.isSome_iff_exists.mp hs
      simp only [compensationPoints, hg, List.map_cons, List.sum_cons]
      rw [ih (fun p hp => h p (List.mem_cons_of_mem _ hp))]
      congr 1
      rw [if_pos (convert_some_gpa_isSome g)]
      simp [gpaOf]

/-- Dropping list elements on which a summand vanishes does not change the
sum. -/
theorem sum_filter_of_vanish {α : Type} (l : List α) (q : α → Bool) (f : α → ℚ)
    (h : ∀ a ∈ l, q a = false → f a = 0) :
    ((l.filter q).map f).sum = (l.map f).sum := by
  induction l with
  | nil => simp
  | cons a rest ih =>
      have ihr := ih (fun b hb hq => h b (List.mem_cons_of_mem _ hb) hq)
      by_cases hq : q a
      · simp only [List.filter_cons, hq, if_pos, List.map_cons, List.sum_cons, ihr]
      · have hz := h a (by simp) (by simpa using hq)
        simp only [List.filter_cons, List.map_cons, List.sum_cons, hz, zero_add]
        simp only [Bool.not_eq_true] at hq
        simp [hq, ihr]

/-- The code's guarded average equals the spec's mean (with mean-of-empty
defined as `0`). -/
theorem mean_code_eq (gd : List (Str × CourseRec)) :
    (if 0 < gd.length then
        (gd.map (fun p => p.2.grade.getD 0)).sum / ((gd.length : ℕ) : ℚ)
      else 0) = spec_meanGrade gd := by
  cases gd with
  | nil => simp [spec_meanGrade]
  | cons hd rest => simp [spec_meanGrade]

/-- The sum of maximum credits is non-negative. -/
theorem sumMax_nonneg (gd : List (Str × CourseRec)) : 0 ≤ spec_sumMaxCredits gd := by
  apply List.sum_nonneg
  intro x hx
  simp only [List.mem_map] at hx
  obtain ⟨p, _, rfl⟩ := hx
  positivity

/-- The spec's earned-credits total is non-negative. -/
theorem earnedCredits_nonneg (gd : List (Str × CourseRec)) : 0 ≤ spec_earnedCredits gd := by
  apply List.sum_nonneg
  intro x hx
  simp only [List.mem_map] at hx
  obtain ⟨p, _, rfl⟩ := hx
  exact earnedOf_nonneg _ _ (by positivity)

/-- A guarded quotient over a non-negative denominator equals the plain
quotient (`x / 0 = 0` on `ℚ`). -/
theorem guarded_div_eq (x d : ℚ) (hd : 0 ≤ d) :
    (if 0 < d then x / d else 0) = x / d := by
  rcases lt_or_eq_of_le hd with h | h
  · rw [if_pos h]
  · rw [if_neg (by rw [← h]; exact lt_irrefl 0), ← h, div_zero]

/-- The loop's earned-credits total is the spec's earned-credits total. -/
theorem ace_sum_eq (gd : List (Str × CourseRec)) :
    (gd.map (fun p => aceTerm (p.2.grade.getD 0) (p.2.maxCr : ℚ))).sum
      = spec_earnedCredits gd := by
  unfold spec_earnedCredits
  apply congrArg List.sum
  apply List.map_congr_left
  intro p _
  exact aceTerm_eq _ _ (by positivity)

/-- The loop's grade-points total is the spec's `gpa × earned` sum. -/
theorem tgp_sum_eq (gd : List (Str × CourseRec)) :
    (gd.map (fun p => tgpTerm (p.2.grade.getD 0) (p.2.maxCr : ℚ))).sum
      = (gd.map (fun p =>
          gpaOf (p.2.grade.getD 0) * earnedOf (p.2.grade.getD 0) (p.2.maxCr : ℚ))).sum := by
  apply congrArg List.sum
  apply List.map_congr_left
  intro p _
  exact tgpTerm_eq _ _ (by positivity)

/-- The earned-weighted GPA restricted to positively-weighted courses
equals the unrestricted quotient of loop totals. -/
theorem gpaWeightedByEarned_eq (gd : List (Str × CourseRec)) :
    spec_gpaWeightedByEarned gd
      = (gd.map (fun p =>
            gpaOf (p.2.grade.getD 0) * earnedOf (p.2.grade.getD 0) (p.2.maxCr : ℚ))).sum
        / spec_earnedCredits gd := by
  unfold spec_gpaWeightedByEarned spec_earnedCredits
  have hnum := sum_filter_of_vanish gd
      (fun p => decide (0 < earnedOf (p.2.grade.getD 0) (p.2.maxCr : ℚ)))
      (fun p => gpaOf (p.2.grade.getD 0) * earnedOf (p.2.grade.getD 0) (p.2.maxCr : ℚ))
      (by
        intro p _ hq
        simp only [decide_eq_false_iff_not, not_lt] at hq
        have : earnedOf (p.2.grade.getD 0) (p.2.maxCr : ℚ) = 0 :=
          le_antisymm hq (earnedOf_nonneg _ _ (by positivity))
        simp only [this, mul_zero])
  have hden := sum_filter_of_vanish gd
      (fun p => decide (0 < earnedOf (p.2.grade.getD 0) (p.2.maxCr : ℚ)))
      (fun p => earnedOf (p.2.grade.getD 0) (p.2.maxCr : ℚ))
      (by
        intro p _ hq
        simp only [decide_eq_false_iff_not, not_lt] at hq
        exact le_antisymm hq (earnedOf_nonneg _ _ (by positivity)))
  dsimp only
  rw [hnum, hden]

/-! ## Claim C1: the compensation branch of the summary row -/

/-- C1: on a table of non-null grades, if the unweighted mean is strictly
above 10 the summary shows the sum of maximum credits and the
max-credit-weighted GPA; if the mean is at most 10 (including exactly 10)
it shows the per-course earned credits and the earned-credit-weighted GPA
restricted to positively-weighted courses. -/
theorem C1_compensation_branches :
    ∀ gd : List (Str × CourseRec), (∀ p ∈ gd, p.2.grade.isSome) →
      ∃ res, create_grades_table gd = some res ∧
        ((10 < spec_meanGrade gd →
            res.summary.creditsForTotals = spec_sumMaxCredits gd ∧
            res.summary.cumulativeGPA = spec_gpaWeightedByMax gd) ∧
         (spec_meanGrade gd ≤ 10 →
            res.summary.creditsForTotals = spec_earnedCredits gd ∧
            res.summary.cumulativeGPA = spec_gpaWeightedByEarned gd)) := by
  intro gd h
  have hrun := runCourses_eq gd initState h
  simp only [create_grades_table, hrun]
  simp only [initState, zero_add, Bool.true_and, List.nil_append]
  rw [mean_code_eq gd]
  by_cases hav : 10 < spec_meanGrade gd
  · rw [if_pos hav]
    refine ⟨_, rfl, fun _ => ⟨rfl, ?_⟩, fun hle => absurd hav (not_lt.mpr hle)⟩
    rw [compensationPoints_eq gd h]
    have := guarded_div_eq
        ((gd.map (fun p => gpaOf (p.2.grade.getD 0) * (p.2.maxCr : ℚ))).sum)
        (spec_sumMaxCredits gd) (sumMax_nonneg gd)
    unfold spec_sumMaxCredits at this
    simpa [spec_gpaWeightedByMax, spec_sumMaxCredits] using this
  · rw [if_neg hav]
    refine ⟨_, rfl, fun hgt => absurd hgt hav, fun _ => ⟨?_, ?_⟩⟩
    · exact ace_sum_eq gd
    · rw [ace_sum_eq gd, tgp_sum_eq gd, gpaWeightedByEarned_eq gd]
      exact guarded_div_eq _ _ (earnedCredits_nonneg gd)

/-! ## Claim C5: all grades at least 10 -/

/-- C5: on a table whose grades are all non-null and at least 10, the
summary reports `passed_all = true` and displays the sum of maximum
credits — in the compensation branch directly, and in the earned-credit
branch (mean exactly 10) because every course earns its full credits. -/
theorem C5_all_passed :
    ∀ gd : List (Str × CourseRec),
      (∀ p ∈ gd, p.2.grade.isSome ∧ 10 ≤ p.2.grade.getD 0) →
      ∃ res, create_grades_table gd = some res ∧
        res.passed_all = true ∧
        res.summary.creditsForTotals = spec_sumMaxCredits gd := by
  intro gd h
  have h1 : ∀ p ∈ gd, p.2.grade.isSome := fun p hp => (h p hp).1
  have hrun := runCourses_eq gd initState h1
  simp only [create_grades_table, hrun]
  simp only [initState, zero_add, Bool.true_and, List.nil_append]
  rw [mean_code_eq gd]
  have hall : (gd.all fun p => decide (10 ≤ p.2.grade.getD 0)) = true :=
    List.all_eq_true.mpr (fun p hp => decide_eq_true (h p hp).2)
  by_cases hav : 10 < spec_meanGrade gd
  · rw [if_pos hav]
    exact ⟨_, rfl, hall, rfl⟩
  · rw [if_neg hav]
    refine ⟨_, rfl, hall, ?_⟩
    rw [ace_sum_eq gd]
    unfold spec_earnedCredits spec_sumMaxCredits
    apply congrArg List.sum
    apply List.map_congr_left
    intro p hp
    unfold earnedOf
    rw [if_neg (not_lt.mpr (h p hp).2)]

/-! ## Totality of the structured aggregator -/

/-- The course loop fails exactly when some course grade is null. -/
theorem runCourses_none_iff (gd : List (Str × CourseRec)) :
    ∀ st, runCourses gd st = Option.none ↔ ∃ p ∈ gd, p.2.grade = Option.none := by
  induction gd with
  | nil =>
      intro st
      refine iff_of_false ?_ ?_
      · simp [runCourses]
      · rintro ⟨p, hp, _⟩
        exact absurd hp (List.not_mem_nil p)
  | cons hd rest ih =>
      obtain ⟨t, info⟩ := hd
      intro st
      cases hg : info.grade with
      | none =>
          refine iff_of_true ?_ ?_
          · simp [runCourses, hg]
          · exact ⟨(t, info), List.mem_cons_self _ _, hg⟩
      | some g =>
          simp only [runCourses, hg, ih]
          constructor
          · rintro ⟨p, hp, hnone⟩
            exact ⟨p, List.mem_cons_of_mem _ hp, hnone⟩
          · rintro ⟨p, hp, hnone⟩
            rcases List.mem_cons.mp hp with rfl | hmem
            · exact absurd hnone (by simp [hg])
            · exact ⟨p, hmem, hnone⟩

/-- The aggregator fails exactly when some course grade is null. -/
theorem create_none_iff (gd : List (Str × CourseRec)) :
    create_grades_table gd = Option.none ↔ ∃ p ∈ gd, p.2.grade = Option.none := by
  rw [← runCourses_none_iff gd initState]
  unfold create_grades_table
  cases hr : runCourses gd initState with
  | none => simp
  | some st =>
      simp only []
      constructor
      · intro hcontra
        by_cases hav : 10 < (if 0 < st.total_courses then
            st.total_grade_sum / (st.total_courses : ℚ) else 0)
        · rw [if_pos hav] at hcontra
          cases hcontra
        · rw [if_neg hav] at hcontra
          cases hcontra
      · intro hcontra
        cases hcontra

/-- On success, every course grade was non-null. -/
theorem create_some_isSome (gd : List (Str × CourseRec)) (res : GradesTableResult)
    (h : create_grades_table gd = some res) : ∀ p ∈ gd, p.2.grade.isSome := by
  intro p hp
  rw [Option.isSome_iff_ne_none]
  intro hnone
  have : create_grades_table gd = Option.none :=
    (create_none_iff gd).mpr ⟨p, hp, hnone⟩
  rw [h] at this
  cases this

/-- On success, the result keeps the loop state's row list. -/
theorem create_rows_of_run (gd : List (Str × CourseRec)) (st : AggState)
    (res : GradesTableResult) (hr : runCourses gd initState = some st)
    (h : create_grades_table gd = some res) : res.rows = st.rows := by
  unfold create_grades_table at h
  rw [hr] at h
  dsimp only at h
  by_cases hc : 10 < (if 0 < st.total_courses then
      st.total_grade_sum / (st.total_courses : ℚ) else 0)
  · rw [if_pos hc] at h
    cases h
    rfl
  · rw [if_neg hc] at h
    cases h
    rfl

/-- On success, the data rows are exactly the per-course rows in order. -/
theorem create_rows_eq (gd : List (Str × CourseRec)) (res : GradesTableResult)
    (h : create_grades_table gd = some res) :
    res.rows = gd.map (fun p => courseRow p.1 (p.2.grade.getD 0) (p.2.maxCr : ℚ)) := by
  have hsome := create_some_isSome gd res h
  have hrun := runCourses_eq gd initState hsome
  have hrw := create_rows_of_run gd _ res hrun h
  rw [hrw]
  simp [initState]

/-! ## Claim C9: a null grade makes the aggregator fail -/

/-- C9: the aggregator fails exactly when some course grade is null (the
null reaches `grade < 10` before any null test), so the N/A display path
is unreachable from the table builder and the aggregator is total exactly
over all-non-null tables. -/
theorem C9_null_grade_fails :
    ∀ gd : List (Str × CourseRec),
      (create_grades_table gd = Option.none ↔ ∃ p ∈ gd, p.2.grade = Option.none) ∧
      (∀ res, create_grades_table gd = some res →
        ∀ row ∈ res.rows, row.letter ≠ "N/A" ∧ row.gpa ≠ Option.none) := by
  intro gd
  refine ⟨create_none_iff gd, ?_⟩
  intro res hres row hrow
  rw [create_rows_eq gd res hres] at hrow
  simp only [List.mem_map] at hrow
  obtain ⟨p, _, rfl⟩ := hrow
  exact ⟨convert_some_letter_ne _, convert_some_gpa_isSome _⟩

/-- C9 witness: a concrete one-course table with a null grade fails, and a
concrete all-non-null table succeeds with no N/A row. -/
theorem C9_witness :
    create_grades_table [("X".toList, (⟨Option.none, 3, 6⟩ : CourseRec))] = Option.none :=
  (C9_null_grade_fails [("X".toList, (⟨Option.none, 3, 6⟩ : CourseRec))]).1.mpr
    ⟨("X".toList, ⟨Option.none, 3, 6⟩), List.mem_cons_self _ _, rfl⟩

/-! ## Claim C3: per-course displayed credits are recomputed from the grade -/

/-- Tables agreeing on titles, grades and maximum credits (but possibly not
on the parser-supplied earned credits) run to the same loop result. -/
theorem runCourses_congr (gd gd' : List (Str × CourseRec))
    (hF : List.Forall₂ (fun p q : Str × CourseRec =>
      p.1 = q.1 ∧ p.2.grade = q.2.grade ∧ p.2.maxCr = q.2.maxCr) gd gd') :
    ∀ st, runCourses gd st = runCourses gd' st := by
  induction hF with
  | nil => intro st; rfl
  | cons hpq htail ih =>
      rename_i p q l1 l2
      intro st
      obtain ⟨h1, h2, h3⟩ := hpq
      simp only [runCourses]
      rw [h2, h1, h3]
      cases hg : q.2.grade with
      | none => rfl
      | some g => exact ih _

/-- The compensation pass also ignores the parser-supplied earned
credits. -/
theorem compensationPoints_congr (gd gd' : List (Str × CourseRec))
    (hF : List.Forall₂ (fun p q : Str × CourseRec =>
      p.1 = q.1 ∧ p.2.grade = q.2.grade ∧ p.2.maxCr = q.2.maxCr) gd gd') :
    compensationPoints gd = compensationPoints gd' := by
  induction hF with
  | nil => rfl
  | cons hpq htail ih =>
      obtain ⟨h1, h2, h3⟩ := hpq
      simp only [compensationPoints]
      rw [h2, h3, ih]

/-- C3: on success, every data row shows `0` earned credits when the course
grade is below 10 and the course's maximum credits otherwise; and the whole
table result is independent of the parser-supplied `creditsEarned` field. -/
theorem C3_displayed_credits :
    (∀ gd res, create_grades_table gd = some res →
      List.Forall₂ (fun (p : Str × CourseRec) (row : TableRow) =>
        ∀ g : ℚ, p.2.grade = some g →
          row.creditsObtained = (if g < 10 then 0 else (p.2.maxCr : ℚ))) gd res.rows) ∧
    (∀ gd gd', List.Forall₂ (fun p q : Str × CourseRec =>
        p.1 = q.1 ∧ p.2.grade = q.2.grade ∧ p.2.maxCr = q.2.maxCr) gd gd' →
      create_grades_table gd = create_grades_table gd') := by
  constructor
  · intro gd res hres
    rw [create_rows_eq gd res hres]
    rw [List.forall₂_map_right_iff]
    rw [List.forall₂_same]
    intro p _ g hg
    simp [courseRow, hg]
  · intro gd gd' hF
    unfold create_grades_table
    rw [runCourses_congr gd gd' hF initState, compensationPoints_congr gd gd' hF]

/-! ## Claim C10: certified 2-tuples versus the aggregator's index-2 read -/

/-- Dict assignment preserves a property of all stored values. -/
theorem dictSet_values {P : List PyVal → Prop} (g : GradesDict) (k : Str) (v : List PyVal)
    (hg : ∀ p ∈ g, P p.2) (hv : P v) : ∀ p ∈ dictSet g k v, P p.2 := by
  intro p hp
  unfold dictSet at hp
  split at hp
  · rcases List.mem_map.mp hp with ⟨q, hq, rfl⟩
    by_cases hk : q.1 = k
    · simp only [if_pos hk]
      exact hv
    · simp only [if_neg hk]
      exact hg q hq
  · rcases List.mem_append.mp hp with hmem | hmem
    · exact hg p hmem
    · rcases List.mem_singleton.mp hmem with rfl
      exact hv

/-- Every record stored by the marked-track certified loop is a 2-tuple. -/
theorem processMaster_len2 : ∀ (l : List Str) (g : GradesDict),
    (∀ p ∈ g, p.2.length = 2) → ∀ g', processMaster l g = Except.ok g' →
    ∀ p ∈ g', p.2.length = 2 := by
  intro l
  induction l with
  | nil =>
      intro g hg g' hok
      cases hok
      exact hg
  | cons line rest ih =>
      intro g hg g' hok
      simp only [processMaster] at hok
      cases hml : masterLine line with
      | stop =>
          rw [hml] at hok
          cases hok
          exact hg
      | skip =>
          rw [hml] at hok
          exact ih g hg g' hok
      | record course grade credits =>
          rw [hml] at hok
          exact ih _ (@dictSet_values (fun v => v.length = 2) g course [PyVal.num grade, PyVal.num credits] hg rfl) g' hok
      | fail e =>
          rw [hml] at hok
          cases hok

/-- Every record stored by the default-track certified loop is a 2-tuple. -/
theorem processL3_len2 : ∀ (l : List Str) (g : GradesDict),
    (∀ p ∈ g, p.2.length = 2) → ∀ g', processL3 l g = Except.ok g' →
    ∀ p ∈ g', p.2.length = 2 := by
  intro l
  induction l with
  | nil =>
      intro g hg g' hok
      cases hok
      exact hg
  | cons line rest ih =>
      intro g hg g' hok
      simp only [processL3] at hok
      cases hml : l3Line line with
      | stop =>
          rw [hml] at hok
          cases hok
          exact hg
      | skip =>
          rw [hml] at hok
          exact ih g hg g' hok
      | record course grade credits =>
          rw [hml] at hok
          exact ih _ (@dictSet_values (fun v => v.length = 2) g course [PyVal.num grade, PyVal.num credits] hg rfl) g' hok
      | fail e =>
          rw [hml] at hok
          cases hok

/-- Mapping over an `Except` yields `ok` only from `ok`. -/
theorem except_map_ok {ε α β : Type} (f : α → β) (e : Except ε α) (b : β)
    (h : Except.map f e = Except.ok b) : ∃ a, e = Except.ok a ∧ b = f a := by
  cases e with
  | error err => cases h
  | ok a =>
      refine ⟨a, rfl, ?_⟩
      cases h
      rfl

/-- The tuple-shaped course loop raises `IndexError` on a leading 2-tuple:
`course_info[2]` is out of range. -/
theorem runCoursesT_len2_error (t : Str) (info : List PyVal)
    (rest : List (Str × List PyVal)) (st : AggState) (h2 : info.length = 2) :
    runCoursesT ((t, info) :: rest) st = Except.error PyErr.indexError := by
  match info, h2 with
  | [a, b], _ =>
      cases a <;> rfl

/-- The tuple-shaped course loop accepts only records with at least three
positions. -/
theorem runCoursesT_ok_len : ∀ (gd : List (Str × List PyVal)) (st st' : AggState),
    runCoursesT gd st = Except.ok st' → ∀ q ∈ gd, 3 ≤ q.2.length := by
  intro gd
  induction gd with
  | nil =>
      intro st st' _ q hq
      exact absurd hq (List.not_mem_nil q)
  | cons hd rest ih =>
      obtain ⟨t, info⟩ := hd
      intro st st' hok q hq
      simp only [runCoursesT] at hok
      rcases List.mem_cons.mp hq with rfl | hmem
      · split at hok
        · cases hok
        · split at hok
          · cases hok
          · rename_i mv hget2
            obtain ⟨hlt, _⟩ := List.get?_eq_some.mp hget2
            show 3 ≤ info.length
            omega
      · split at hok
        · cases hok
        · split at hok
          · cases hok
          · split at hok
            · cases hok
            · split at hok
              · cases hok
              · exact ih _ _ hok q hmem

/-- C10: the certified parser stores only 2-tuples, so any non-empty
certified grade table makes the tuple-reading aggregator fail with an
out-of-range access at its first course; and the aggregator's course loop
accepts only records with at least three positions (as the uncertified
parser produces). -/
theorem C10_certified_tuple_mismatch :
    (∀ (data : List Str) (p : Profile) (g : GradesDict),
        read_grades data true = Except.ok (p, g) →
        (∀ q ∈ g, q.2.length = 2) ∧
        (g ≠ [] → create_grades_table_tuples g = Except.error PyErr.indexError)) ∧
    (∀ (gd : List (Str × List PyVal)) (st st' : AggState),
        runCoursesT gd st = Except.ok st' → ∀ q ∈ gd, 3 ≤ q.2.length) := by
  constructor
  · intro data p g hok
    have hlen2 : ∀ q ∈ g, q.2.length = 2 := by
      cases data with
      | nil => cases hok
      | cons l0 rest =>
          simp only [read_grades, if_pos] at hok
          obtain ⟨g0, hg0, hpg⟩ := except_map_ok _ _ _ hok
          have hgg : g = g0 := congrArg Prod.snd hpg
          rw [← hgg] at hg0
          unfold coursePartCertified at hg0
          split at hg0
          · cases hg0
          · split at hg0
            · exact processMaster_len2 _ [] (by intro q hq; cases hq) g hg0
            · exact processL3_len2 _ [] (by intro q hq; cases hq) g hg0
    refine ⟨hlen2, ?_⟩
    intro hne
    cases g with
    | nil => exact absurd rfl hne
    | cons q rest =>
        obtain ⟨t, info⟩ := q
        have h2 : info.length = 2 := hlen2 (t, info) (List.mem_cons_self _ _)
        unfold create_grades_table_tuples
        rw [runCoursesT_len2_error t info rest initState h2]
  · exact runCoursesT_ok_len

/-! ## Parser control-flow lemmas (claims C4, C6, C8) -/

/-- A marked-track line that is neither the terminal marker nor a semester
header, and whose tail holds no `/20` marker, is classified `skip`
(the `try/except: continue` of grades.py lines 52-56). -/
theorem masterLine_skip_of_no_marker (line : Str)
    (h1 : ("Overall Result".toList).isPrefixOf line = false)
    (h2 : ("SEMESTER".toList).isPrefixOf line = false)
    (h3 : pyFindSub (pySliceZ line 5 line.length) "/20".toList = Option.none) :
    masterLine line = LineOutcome.skip := by
  unfold masterLine
  rw [if_neg (by rw [h1]; simp), if_neg (by rw [h2]; simp)]
  simp only [h3]

/-- The marked-track loop skips a line classified `skip`. -/
theorem processMaster_skip (line : Str) (rest : List Str) (g : GradesDict)
    (h : masterLine line = LineOutcome.skip) :
    processMaster (line :: rest) g = processMaster rest g := by
  simp only [processMaster, h]

/-- The marked-track loop stops at a line classified `stop`, recording
nothing at or after it. -/
theorem processMaster_stop (line : Str) (rest : List Str) (g : GradesDict)
    (h : masterLine line = LineOutcome.stop) :
    processMaster (line :: rest) g = Except.ok g := by
  simp only [processMaster, h]

/-- A line starting with `SEMESTER` does not start with `Overall Result`. -/
theorem not_overall_of_semester (line : Str)
    (h : ("SEMESTER".toList).isPrefixOf line = true) :
    ("Overall Result".toList).isPrefixOf line = false := by
  cases line with
  | nil => exact absurd h (by decide)
  | cons c cs =>
      have hc : c = 'S' := by
        rw [show ("SEMESTER".toList) = 'S' :: "EMESTER".toList from rfl] at h
        simp only [List.isPrefixOf, Bool.and_eq_true, beq_iff_eq] at h
        exact h.1.symm
      subst hc
      rw [show ("Overall Result".toList) = 'O' :: "verall Result".toList from rfl]
      simp [List.isPrefixOf]

/-- A semester-header line is classified `skip` in the marked track. -/
theorem masterLine_semester (line : Str)
    (h : ("SEMESTER".toList).isPrefixOf line = true) :
    masterLine line = LineOutcome.skip := by
  unfold masterLine
  rw [if_neg (by rw [not_overall_of_semester line h]; simp), if_pos h]

/-- A terminal-marker line is classified `stop` in the marked track. -/
theorem masterLine_overall (line : Str)
    (h : ("Overall Result".toList).isPrefixOf line = true) :
    masterLine line = LineOutcome.stop := by
  unfold masterLine
  rw [if_pos h]

/-- The marked-track loop never signals `extractionEmpty`. -/
theorem processMaster_ne_empty : ∀ (l : List Str) (g : GradesDict),
    processMaster l g ≠ Except.error PyErr.extractionEmpty := by
  intro l
  induction l with
  | nil =>
      intro g h
      cases h
  | cons line rest ih =>
      intro g h
      simp only [processMaster] at h
      cases hml : masterLine line with
      | stop => rw [hml] at h; cases h
      | skip => rw [hml] at h; exact ih g h
      | record course grade credits => rw [hml] at h; exact ih _ h
      | fail e =>
          rw [hml] at h
          injection h with h2
          cases e <;> cases h2

/-- The default-track loop never signals `extractionEmpty`. -/
theorem processL3_ne_empty : ∀ (l : List Str) (g : GradesDict),
    processL3 l g ≠ Except.error PyErr.extractionEmpty := by
  intro l
  induction l with
  | nil =>
      intro g h
      cases h
  | cons line rest ih =>
      intro g h
      simp only [processL3] at h
      cases hml : l3Line line with
      | stop => rw [hml] at h; cases h
      | skip => rw [hml] at h; exact ih g h
      | record course grade credits => rw [hml] at h; exact ih _ h
      | fail e =>
          rw [hml] at h
          injection h with h2
          cases e <;> cases h2

/-- The uncertified loop never signals `extractionEmpty`. -/
theorem processUncert_ne_empty : ∀ (l : List Str) (g : GradesDict) (gained : Option ℤ),
    processUncert l g gained ≠ Except.error PyErr.extractionEmpty := by
  intro l
  induction l with
  | nil =>
      intro g gained h
      cases h
  | cons line rest ih =>
      intro g gained h
      simp only [processUncert] at h
      cases hml : uncertLine line with
      | skip => rw [hml] at h; exact ih g gained h
      | rec3 course grade gained2 credits => rw [hml] at h; exact ih _ _ h
      | recStale course grade =>
          rw [hml] at h
          cases gained with
          | none => cases h
          | some go => exact ih _ _ h
      | fail e =>
          rw [hml] at h
          injection h with h2
          cases e <;> cases h2

/-- Mapping over an `Except` yields an error only from the same error. -/
theorem except_map_error {ε α β : Type} (f : α → β) (e : Except ε α) (err : ε)
    (h : Except.map f e = Except.error err) : e = Except.error err := by
  cases e with
  | error e0 =>
      cases h
      rfl
  | ok a => cases h

/-- The certified course part never signals `extractionEmpty`. -/
theorem coursePartCertified_ne_empty (data : List Str) :
    coursePartCertified data ≠ Except.error PyErr.extractionEmpty := by
  unfold coursePartCertified
  cases data.get? 8 with
  | none => intro h; cases h
  | some d8 =>
      simp only []
      split
      · exact processMaster_ne_empty _ _
      · exact processL3_ne_empty _ _

/-- On non-empty certified input, the parse result is the course part
paired with the independently-extracted profile: metadata extraction can
never abort the parse. -/
theorem read_grades_certified_split (data : List Str) (h : data ≠ []) :
    read_grades data true
      = Except.map (fun g => (extractProfileCertified data, g))
          (coursePartCertified data) := by
  cases data with
  | nil => exact absurd rfl h
  | cons l0 rest => rfl

/-- The uncertified-dialect shape of `read_grades`: the course loop's
exception wins; otherwise the parse returns only when both metadata steps
succeeded, and raises `UnboundLocalError` at the `return` when they did
not. -/
theorem read_grades_uncert_split (data : List Str) (h : data ≠ []) :
    read_grades data false
      = (match processUncert (data.drop 5) [] Option.none with
         | Except.error e => Except.error e
         | Except.ok g =>
           match extractProfileUncert data with
           | Option.none => Except.error PyErr.unboundLocalError
           | some profile => Except.ok (profile, g)) := by
  cases data with
  | nil => exact absurd rfl h
  | cons l0 rest => rfl

/-- When the uncertified course loop completes but a metadata step failed,
the parse aborts with `UnboundLocalError` (the unbound `academic_year` at
grades.py line 110). -/
theorem read_grades_uncert_metadata_abort (data : List Str) (g : GradesDict)
    (h : data ≠ []) (hg : processUncert (data.drop 5) [] Option.none = Except.ok g)
    (hp : extractProfileUncert data = Option.none) :
    read_grades data false = Except.error PyErr.unboundLocalError := by
  rw [read_grades_uncert_split data h, hg, hp]

/-- When the uncertified course loop completes and both metadata steps
succeeded, the parse returns the profile with the courses. -/
theorem read_grades_uncert_ok (data : List Str) (g : GradesDict) (pr : Profile)
    (h : data ≠ []) (hg : processUncert (data.drop 5) [] Option.none = Except.ok g)
    (hp : extractProfileUncert data = some pr) :
    read_grades data false = Except.ok (pr, g) := by
  rw [read_grades_uncert_split data h, hg, hp]

/-- A non-empty input never signals `extractionEmpty`. -/
theorem read_grades_ne_empty (data : List Str) (c : Bool) (h : data ≠ []) :
    read_grades data c ≠ Except.error PyErr.extractionEmpty := by
  intro hcontra
  cases data with
  | nil => exact h rfl
  | cons l0 rest =>
      cases c with
      | true =>
          rw [read_grades_certified_split _ (by simp)] at hcontra
          exact coursePartCertified_ne_empty _ (except_map_error _ _ _ hcontra)
      | false =>
          rw [read_grades_uncert_split _ (by simp)] at hcontra
          cases hpu : processUncert ((l0 :: rest).drop 5) [] Option.none with
          | error e =>
              rw [hpu] at hcontra
              injection hcontra with h2
              subst h2
              exact processUncert_ne_empty _ _ _ hpu
          | ok g =>
              rw [hpu] at hcontra
              cases hpr : extractProfileUncert (l0 :: rest) with
              | none =>
                  rw [hpr] at hcontra
                  cases hcontra
              | some pr =>
                  rw [hpr] at hcontra
                  cases hcontra

/-- Certified profile when the academic-year step fails: everything null. -/
theorem extractProfileCertified_year_fail (data : List Str)
    (h : yearOfCertified data = Option.none) :
    extractProfileCertified data = emptyProfile := by
  unfold extractProfileCertified
  rw [h]

/-- Certified profile when the name step fails: the already-extracted year
is kept, names and birth info stay null. -/
theorem extractProfileCertified_names_fail (data : List Str) (y : ℤ)
    (hy : yearOfCertified data = some y) (hn : namesOfCertified data = Option.none) :
    extractProfileCertified data = { emptyProfile with academic_year := some y } := by
  unfold extractProfileCertified
  rw [hy, hn]

/-- Certified profile when the birth step fails: year and names are kept,
birth fields stay null. -/
theorem extractProfileCertified_birth_fail (data : List Str) (y : ℤ) (s n : Str)
    (hy : yearOfCertified data = some y) (hn : namesOfCertified data = some (s, n))
    (hb : birthOfCertified data = Option.none) :
    extractProfileCertified data = ⟨some n, some s, some y, Option.none, Option.none⟩ := by
  unfold extractProfileCertified
  rw [hy, hn, hb]

/-- Uncertified metadata when the name step fails: `academic_year` stays
unbound (the year step is never reached), so no profile can be returned. -/
theorem extractProfileUncert_names_fail (data : List Str)
    (h : namesOfUncert data = Option.none) :
    extractProfileUncert data = Option.none := by
  unfold extractProfileUncert
  rw [h]

/-- Uncertified metadata when the year step fails: `academic_year` stays
unbound even though the names were extracted, so no profile can be
returned. -/
theorem extractProfileUncert_year_fail (data : List Str) (n s : Str)
    (hn : namesOfUncert data = some (n, s)) (hy : yearOfUncert data = Option.none) :
    extractProfileUncert data = Option.none := by
  unfold extractProfileUncert
  rw [hn, hy]

/-- Uncertified metadata when both steps succeed: name, surname and year
are set, birth fields are never extracted in this dialect. -/
theorem extractProfileUncert_ok (data : List Str) (n s : Str) (y : ℤ)
    (hn : namesOfUncert data = some (n, s)) (hy : yearOfUncert data = some y) :
    extractProfileUncert data
      = some ⟨some n, some s, some y, Option.none, Option.none⟩ := by
  unfold extractProfileUncert
  rw [hn, hy]

/-! ## Claim C4 (amended): the parser's failure modes -/

/-- C4 as amended: EXTRACTION_EMPTY is signalled exactly on empty input,
and in the certified marked track a course line whose `/20` marker cannot
be located is skipped without affecting the rest; other located-but-broken
content (a digit-less numeric token, a default-track `UE` line without
`/20`, a certified document with fewer than nine lines) raises and aborts
the whole parse — see the counterexample theorem. -/
theorem C4_amended_error_model :
    (∀ c : Bool, read_grades [] c = Except.error PyErr.extractionEmpty) ∧
    (∀ (data : List Str) (c : Bool), data ≠ [] →
        read_grades data c ≠ Except.error PyErr.extractionEmpty) ∧
    (∀ (line : Str) (rest : List Str) (g : GradesDict),
        ("Overall Result".toList).isPrefixOf line = false →
        ("SEMESTER".toList).isPrefixOf line = false →
        pyFindSub (pySliceZ line 5 line.length) "/20".toList = Option.none →
        processMaster (line :: rest) g = processMaster rest g) := by
  refine ⟨fun c => rfl, read_grades_ne_empty, ?_⟩
  intro line rest g h1 h2 h3
  exact processMaster_skip line rest g (masterLine_skip_of_no_marker line h1 h2 h3)

/-! ## Claim C6 (amended): sequential metadata extraction -/

/-- C6 as amended.  Certified dialect: metadata failures never abort the
parse, but the three steps (year, then names, then birth) share one `try`
block, so a failing step leaves that field AND every later-extracted field
null, while earlier fields keep their values.  Uncertified dialect: the
two steps (names, then year) also share one `try`, but `academic_year` is
never initialized (grades.py line 80), so ANY metadata failure leaves it
unbound and the parse aborts with `UnboundLocalError` at the final
`return` (after the course loop has run); a result is returned only when
both steps succeeded. -/
theorem C6_amended_metadata :
    (∀ data : List Str, data ≠ [] →
        read_grades data true
          = Except.map (fun g => (extractProfileCertified data, g))
              (coursePartCertified data)) ∧
    (∀ data, yearOfCertified data = Option.none →
        extractProfileCertified data = emptyProfile) ∧
    (∀ data y, yearOfCertified data = some y → namesOfCertified data = Option.none →
        extractProfileCertified data = { emptyProfile with academic_year := some y }) ∧
    (∀ data y s n, yearOfCertified data = some y → namesOfCertified data = some (s, n) →
        birthOfCertified data = Option.none →
        extractProfileCertified data = ⟨some n, some s, some y, Option.none, Option.none⟩) ∧
    (∀ (data : List Str) (g : GradesDict), data ≠ [] →
        processUncert (data.drop 5) [] Option.none = Except.ok g →
        extractProfileUncert data = Option.none →
        read_grades data false = Except.error PyErr.unboundLocalError) ∧
    (∀ (data : List Str) (g : GradesDict) (pr : Profile), data ≠ [] →
        processUncert (data.drop 5) [] Option.none = Except.ok g →
        extractProfileUncert data = some pr →
        read_grades data false = Except.ok (pr, g)) ∧
    (∀ data, namesOfUncert data = Option.none →
        extractProfileUncert data = Option.none) ∧
    (∀ data n s, namesOfUncert data = some (n, s) → yearOfUncert data = Option.none →
        extractProfileUncert data = Option.none) ∧
    (∀ data n s y, namesOfUncert data = some (n, s) → yearOfUncert data = some y →
        extractProfileUncert data
          = some ⟨some n, some s, some y, Option.none, Option.none⟩) :=
  ⟨read_grades_certified_split,
   extractProfileCertified_year_fail, extractProfileCertified_names_fail,
   extractProfileCertified_birth_fail,
   read_grades_uncert_metadata_abort, read_grades_uncert_ok,
   extractProfileUncert_names_fail, extractProfileUncert_year_fail,
   extractProfileUncert_ok⟩

/-! ## Concrete evaluations: counterexamples and witnesses

Batteries marks the `Rat` arithmetic operations `@[irreducible]`; the
kernel ignores reducibility, but the `decide` front-end needs them
reducible to evaluate the embedding on concrete inputs. -/

set_option allowUnsafeReducibility true

attribute [local semireducible] Rat.add Rat.sub Rat.mul Rat.inv Rat.ofScientific

/-- A concrete certified document whose recognized `UE` course line carries
a digit-less grade token (`ab/20`). -/
def c4Input : List Str :=
  ["x".toList, "x".toList, "x".toList, "x".toList, "x".toList, "x".toList,
   "x".toList, "x".toList, "x".toList, "UE111 Algebra ab/20 6".toList]

/-- C4 counterexample: a non-empty document makes the parse raise — the
recognized course line whose numeric token has no digits after
noise-stripping is not skipped, the whole parse aborts with the
(uncaught) `ValueError`. -/
theorem C4_counterexample :
    c4Input ≠ [] ∧ read_grades c4Input true = Except.error PyErr.valueError :=
  ⟨by decide, by decide⟩

/-- C4 witness: the empty document signals EXTRACTION_EMPTY, and the
marked-track skip rule applies at a concrete line without the `/20`
marker. -/
theorem C4_witness :
    read_grades [] true = Except.error PyErr.extractionEmpty ∧
    processMaster ["xxxxxxx".toList, "y".toList] [] = processMaster ["y".toList] [] :=
  ⟨C4_amended_error_model.1 true,
   C4_amended_error_model.2.2 "xxxxxxx".toList ["y".toList] [] (by decide) (by decide)
     (by decide)⟩

/-- A concrete certified document whose first line breaks the year parse
(`int("AB")`) while line 4 holds a perfectly well-formed name pair. -/
def c6Input : List Str :=
  ["Annee universitaire AB/2024".toList, "x".toList, "x".toList, "x".toList,
   "DOE JANE".toList, "x".toList, "x".toList, "x".toList, "x".toList]

/-- A concrete uncertified document whose metadata lines are unusable but
whose single course line is perfectly well-formed. -/
def c6UncertInput : List Str :=
  ["x".toList, "x".toList, "x".toList, "x".toList, "x".toList,
   "UE1 Algebra 4/6 12,0 ADM".toList]

/-- C6 counterexample, both dialects.  Certified: the name pair is
locatable (`namesOfCertified` succeeds), yet the returned profile leaves
name and surname null, because the earlier academic-year failure aborted
the shared `try` block.  Uncertified: the course line parses fine, yet the
parse does NOT return a result — it aborts with `UnboundLocalError`
because the metadata failure left `academic_year` unbound. -/
theorem C6_counterexample :
    (read_grades c6Input true = Except.ok (emptyProfile, []) ∧
      namesOfCertified c6Input = some ("DOE".toList, "JANE".toList)) ∧
    read_grades c6UncertInput false = Except.error PyErr.unboundLocalError :=
  ⟨⟨by decide, by decide⟩, by decide⟩

/-- C6 witness: the amended failure propagation at concrete inputs — the
certified year failure nulls the whole profile, and the uncertified
metadata failure aborts the parse. -/
theorem C6_witness :
    extractProfileCertified c6Input = emptyProfile ∧
    read_grades ["x".toList] false = Except.error PyErr.unboundLocalError :=
  ⟨C6_amended_metadata.2.1 c6Input (by decide),
   C6_amended_metadata.2.2.2.2.1 ["x".toList] [] (by decide) (by decide) (by decide)⟩

/-- A concrete uncertified document with valid metadata lines (so the
parse returns), then one course line with a credit slash (`4/6`) and one
without a slash. -/
def c7Input : List Str :=
  ["Releve de notes".toList, "x".toList, "JANE DOE".toList, "x".toList,
   "Annee : 2023/2024".toList,
   "UE1 Algebra 4/6 12,0 ADM".toList, "UE2 History 9,0 AJ".toList]

/-- C7: the slash-less course line is stored with the PREVIOUS course's
`gained_credits` (4), not zero — the stale local variable leaks across
iterations (grades.py line 100 versus line 109). -/
theorem C7_stale_gained_credits :
    read_grades c7Input false
      = Except.ok
          (⟨some "JANE".toList, some "DOE".toList, some 2023, Option.none, Option.none⟩,
          [("Algebra".toList, [PyVal.num 12, PyVal.num 4, PyVal.num 6]),
           ("History".toList, [PyVal.num 9, PyVal.num 4, PyVal.num 0])]) := by
  decide

/-- C8 as amended: in the certified marked track, semester-header lines
are skipped and nothing at or after the terminal `Overall Result` line is
recorded (parsing is prefix-bounded); but recording does NOT require the
line to begin with the `UE` course-unit marker — witness the recorded
non-marker line `ZZ111 Intro 12,5/20 6`.  (A `/20` line is still not
guaranteed to be recorded: its grade token must also convert, else the
parse aborts — see C4.) -/
theorem C8_amended_marked_track :
    (∀ (line : Str) (rest : List Str) (g : GradesDict),
        ("SEMESTER".toList).isPrefixOf line = true →
        processMaster (line :: rest) g = processMaster rest g) ∧
    (∀ (line : Str) (rest : List Str) (g : GradesDict),
        ("Overall Result".toList).isPrefixOf line = true →
        processMaster (line :: rest) g = Except.ok g) ∧
    (processMaster ["ZZ111 Intro 12,5/20 6".toList] []
        = Except.ok [("ZZ111 Intro".toList, [PyVal.num (25 / 2 : ℚ), PyVal.num 6])] ∧
      ("UE".toList).isPrefixOf "ZZ111 Intro 12,5/20 6".toList = false) := by
  refine ⟨?_, ?_, by decide, by decide⟩
  · intro line rest g h
    exact processMaster_skip line rest g (masterLine_semester line h)
  · intro line rest g h
    exact processMaster_stop line rest g (masterLine_overall line h)

/-- C8 witness: the amended skip and stop rules applied at concrete
lines. -/
theorem C8_witness :
    processMaster ["SEMESTER 1".toList, "Overall Result".toList] [] = Except.ok [] := by
  rw [C8_amended_marked_track.1 "SEMESTER 1".toList ["Overall Result".toList] [] (by decide)]
  exact C8_amended_marked_track.2.1 "Overall Result".toList [] [] (by decide)

/-- A concrete M1 certified document: marker line at index 8, a course
line that does not start with `UE`, the terminal line, and a course line
after it. -/
def c8Input : List Str :=
  ["x".toList, "x".toList, "x".toList, "x".toList, "x".toList, "x".toList,
   "x".toList, "x".toList, "MASTER 1 COMPUTER SCIENCE".toList,
   "ZZ111 Intro 12,5/20 6".toList, "Overall Result".toList,
   "ZZ999 After 15,0/20 6".toList]

/-- C8 counterexample: the line `ZZ111 Intro 12,5/20 6`, which does not
begin with the `UE` course-unit marker, is nevertheless recorded as a
course by the marked-track parser (and the line after the terminal marker
is not). -/
theorem C8_counterexample :
    read_grades c8Input true
      = Except.ok (emptyProfile,
          [("ZZ111 Intro".toList, [PyVal.num (25 / 2 : ℚ), PyVal.num 6])]) ∧
    ("UE".toList).isPrefixOf "ZZ111 Intro 12,5/20 6".toList = false :=
  ⟨by decide, by decide⟩

/-- Scenario A of the spec: mean exactly 10. -/
def exampleTableA : List (Str × CourseRec) :=
  [("Algebra".toList, ⟨some 12, 6, 6⟩), ("History".toList, ⟨some 8, 0, 6⟩)]

/-- The aggregator's output on `exampleTableA`. -/
def exampleResultA : GradesTableResult :=
  { rows :=
      [{ title := "Algebra".toList, creditsObtained := 6, creditsMax := 6,
         star := false, gradeDisplay := some 12, letter := "B+",
         gpa := some (333 / 100) },
       { title := "History".toList, creditsObtained := 0, creditsMax := 6,
         star := true, gradeDisplay := some 8, letter := "C", gpa := some 2 }]
    summary :=
      { creditsForTotals := 6, averageGrade := 10, averageLetter := "B-",
        cumulativeGPA := 333 / 100 }
    passed_all := false }

/-- C1 witness: the boundary table (mean exactly 10) takes the
earned-credit branch. -/
theorem C1_witness :
    (∀ p ∈ exampleTableA, p.2.grade.isSome) ∧
    (∃ res, create_grades_table exampleTableA = some res ∧
      ((10 < spec_meanGrade exampleTableA →
          res.summary.creditsForTotals = spec_sumMaxCredits exampleTableA ∧
          res.summary.cumulativeGPA = spec_gpaWeightedByMax exampleTableA) ∧
       (spec_meanGrade exampleTableA ≤ 10 →
          res.summary.creditsForTotals = spec_earnedCredits exampleTableA ∧
          res.summary.cumulativeGPA = spec_gpaWeightedByEarned exampleTableA))) :=
  ⟨by decide, C1_compensation_branches exampleTableA (by decide)⟩

/-- C3 witness: the displayed credits of the two rows follow the
per-course rule. -/
theorem C3_witness :
    create_grades_table exampleTableA = some exampleResultA ∧
    List.Forall₂ (fun (p : Str × CourseRec) (row : TableRow) =>
      ∀ g : ℚ, p.2.grade = some g →
        row.creditsObtained = (if g < 10 then 0 else (p.2.maxCr : ℚ)))
      exampleTableA exampleResultA.rows :=
  ⟨by decide, C3_displayed_credits.1 exampleTableA exampleResultA (by decide)⟩

/-- Scenario B of the spec: all grades at least 10. -/
def exampleTableB : List (Str × CourseRec) :=
  [("Algebra".toList, ⟨some 12, 6, 6⟩), ("History".toList, ⟨some 11, 6, 6⟩)]

/-- C5 witness: all grades at least 10 at a concrete table. -/
theorem C5_witness :
    (∀ p ∈ exampleTableB, p.2.grade.isSome ∧ 10 ≤ p.2.grade.getD 0) ∧
    (∃ res, create_grades_table exampleTableB = some res ∧ res.passed_all = true ∧
      res.summary.creditsForTotals = spec_sumMaxCredits exampleTableB) :=
  ⟨by decide, C5_all_passed exampleTableB (by decide)⟩

/-- A concrete certified document yielding one stored course. -/
def c10Input : List Str :=
  ["x".toList, "x".toList, "x".toList, "x".toList, "x".toList, "x".toList,
   "x".toList, "x".toList, "x".toList, "UE111 Algebra 12,5/20 6".toList]

/-- C10 witness: the concrete certified parse yields a non-empty 2-tuple
dict on which the tuple-reading aggregator raises `IndexError`. -/
theorem C10_witness :
    create_grades_table_tuples
        [(" Algebra".toList, [PyVal.num (25 / 2 : ℚ), PyVal.num 6])]
      = Except.error PyErr.indexError :=
  (C10_certified_tuple_mismatch.1 c10Input emptyProfile
      [(" Algebra".toList, [PyVal.num (25 / 2 : ℚ), PyVal.num 6])] (by decide)).2
    (by decide)

end ENSGrading
